import Mathlib

/-!
Verification development for the AI Treasury Vault Soroban contract
(`src/contracts/ai_treasury_vault/src/lib.rs`, `AITreasuryVaultV2`).

Modelling conventions:

* Contract storage (`env.storage().instance()` / `env.storage().temporary()`)
  is modelled as an explicit `Store` record.  The Soroban host commits the
  storage of a transition only when the call returns normally; a call that
  aborts leaves the chain state unchanged.  Fallible operations therefore
  return `Except VaultError (result × Store)`, and the host-level semantics
  `step` maps an error to the unchanged pre-state.
* Machine integers are modelled as `Nat` (u32/u64) and `Int` (i32/i128).
  Arithmetic that can overflow (`+= 1` on counters, `+=` on the i128
  cumulative profit) is modelled as checked: out-of-range results abort the
  call, matching the `overflow-checks = true` release profile that Soroban
  contracts are built with.  Rust `as` casts never abort; they truncate to
  the two's-complement value (`toI32`).  Rust signed division truncates
  toward zero and aborts on division by zero and on `i32::MIN / -1`
  (`divI32`); these checks are unconditional in Rust.
* `require_auth()` is not modelled: every call is taken to be authorized
  (the claims under study do not concern the authorization oracle).
* `env.ledger().timestamp()` is passed in explicitly as a `now : Nat`
  argument.
* The Rust source field `sharpe_ratio` (an integer scaled by 100) is named
  `sharpe_ratio_x100` here; everything else keeps the source names.
-/

namespace AITreasuryVault

/-- Identities are opaque to the contract logic; model them as naturals. -/
abbrev Address := Nat

/-- Mirrors struct `TradingSignal` (lib.rs 21-32). -/
structure TradingSignal where
  signal_id : Nat
  asset : String
  action : String
  amount : Int
  strategy : String
  confidence : Nat
  expected_return : Int
  timestamp : Nat
deriving DecidableEq

/-- Mirrors struct `TradeRecord` (lib.rs 34-46). -/
structure TradeRecord where
  trade_id : Nat
  signal_id : Nat
  asset : String
  action : String
  amount : Int
  price : Int
  strategy : String
  executed_at : Nat
  profit_loss : Int
deriving DecidableEq

/-- Mirrors struct `StrategyPerformance` (lib.rs 48-58); `sharpe_ratio_x100`
is the source field `sharpe_ratio`. -/
structure StrategyPerformance where
  strategy_name : String
  total_trades : Nat
  winning_trades : Nat
  total_profit : Int
  avg_return : Int
  sharpe_ratio_x100 : Int
  last_updated : Nat
deriving DecidableEq

/-- Mirrors struct `PortfolioSnapshot` (lib.rs 60-69). -/
structure PortfolioSnapshot where
  snapshot_id : Nat
  timestamp : Nat
  total_value : Int
  num_assets : Nat
  total_trades : Nat
  cumulative_return : Int
deriving DecidableEq

/-- Mirrors struct `RiskMetrics` (lib.rs 71-79); `sharpe_ratio_x100` is the
source field `sharpe_ratio`. -/
structure RiskMetrics where
  var_95 : Int
  sharpe_ratio_x100 : Int
  max_drawdown : Int
  portfolio_volatility : Nat
  stop_loss_level : Int
deriving DecidableEq

/-- Mirrors struct `VaultConfig` (lib.rs 81-95); `min_sharpe_ratio_x100` is
the source field `min_sharpe_ratio`. -/
structure VaultConfig where
  admin : Address
  trading_agent : Address
  risk_agent : Address
  payment_agent : Address
  max_single_trade : Int
  max_var_95 : Int
  min_sharpe_ratio_x100 : Int
  dynamic_stop_loss : Bool
  halted : Bool
  created_at : Nat
  version : Nat
deriving DecidableEq

/-- Failure conditions.  In the source every failure is an abort of the
transaction: `unwrap()` on a missing `Config` (`noConfig`) or a missing
signal (`notFound`), the two explicit aborts of `submit_trading_signal`
(`systemHalted`, `limitExceeded`), checked-arithmetic overflow
(`overflow`), and the unconditional Rust division checks (`divByZero`). -/
inductive VaultError where
  | noConfig
  | systemHalted
  | limitExceeded
  | notFound
  | overflow
  | divByZero
deriving DecidableEq

/-- The contract's storage: one field per `DataKey` namespace
(lib.rs 97-110).  Counters are read with `unwrap_or(0)` in the source, so
they are plain naturals defaulting to `0`; keyed namespaces are association
lists (most recent write first); `Config`, `RiskMetrics` and
`LatestSnapshot` are optional single slots. -/
structure Store where
  config : Option VaultConfig
  tradeCounter : Nat
  signalCounter : Nat
  snapshotCounter : Nat
  trades : List (Nat × TradeRecord)
  signals : List (Nat × TradingSignal)
  strategies : List (String × StrategyPerformance)
  snapshots : List (Nat × PortfolioSnapshot)
  riskMetrics : Option RiskMetrics
  latestSnapshot : Option PortfolioSnapshot
deriving DecidableEq

/-- The state of a fresh contract instance: nothing stored yet. -/
def emptyStore : Store :=
  { config := none, tradeCounter := 0, signalCounter := 0, snapshotCounter := 0,
    trades := [], signals := [], strategies := [], snapshots := [],
    riskMetrics := none, latestSnapshot := none }

/-- Point lookup in a keyed storage namespace (the source only ever does
point lookups by known key). -/
def storeGet {α β : Type} [DecidableEq α] (m : List (α × β)) (k : α) : Option β :=
  match m with
  | [] => none
  | (a, b) :: t => if a = k then some b else storeGet t k

/-- Checked `u64` increment (`+= 1` under `overflow-checks = true`). -/
def incU64 (n : Nat) : Except VaultError Nat :=
  if n + 1 < 2 ^ 64 then .ok (n + 1) else .error .overflow

/-- Checked `u32` increment (`+= 1` under `overflow-checks = true`). -/
def incU32 (n : Nat) : Except VaultError Nat :=
  if n + 1 < 2 ^ 32 then .ok (n + 1) else .error .overflow

/-- Checked `i128` addition (`+=` under `overflow-checks = true`). -/
def addI128 (a b : Int) : Except VaultError Int :=
  if -(2 ^ 127) ≤ a + b ∧ a + b < 2 ^ 127 then .ok (a + b) else .error .overflow

/-- Rust `as i32` cast: truncation to the low 32 bits read as a
two's-complement value.  Applies both to `i128 as i32` and, through the
coercion of the `Nat` argument, to `u32 as i32`. -/
def toI32 (x : Int) : Int :=
  let r := x % (2 ^ 32 : Int)
  if r < 2 ^ 31 then r else r - 2 ^ 32

/-- Rust `i32` division: truncation toward zero; division by zero and
`i32::MIN / -1` abort unconditionally. -/
def divI32 (a b : Int) : Except VaultError Int :=
  if b = 0 then .error .divByZero
  else if a = -(2 ^ 31) ∧ b = -1 then .error .overflow
  else .ok (Int.tdiv a b)

/-- Embeds `initialize` (lib.rs 123-151).  The source performs no
"already initialized" check: it unconditionally writes `Config` and resets
the three counters to `0`. -/
def initializeVault (s : Store) (now : Nat)
    (admin trading_agent risk_agent payment_agent : Address)
    (max_single_trade : Int) : Store :=
  let config : VaultConfig :=
    { admin := admin, trading_agent := trading_agent, risk_agent := risk_agent,
      payment_agent := payment_agent, max_single_trade := max_single_trade,
      max_var_95 := 500, min_sharpe_ratio_x100 := 100,
      dynamic_stop_loss := true, halted := false, created_at := now, version := 2 }
  { s with config := some config, tradeCounter := 0, signalCounter := 0,
           snapshotCounter := 0 }

/-- Embeds `submit_trading_signal` (lib.rs 154-194). -/
def submit_trading_signal (s : Store) (now : Nat) (asset action : String)
    (amount : Int) (strategy : String) (confidence : Nat)
    (expected_return : Int) : Except VaultError (Nat × Store) :=
  match s.config with
  | none => .error .noConfig
  | some config =>
    if config.halted then .error .systemHalted
    else if amount > config.max_single_trade then .error .limitExceeded
    else
      match incU64 s.signalCounter with
      | .error e => .error e
      | .ok signal_counter =>
        let signal : TradingSignal :=
          { signal_id := signal_counter, asset := asset, action := action,
            amount := amount, strategy := strategy, confidence := confidence,
            expected_return := expected_return, timestamp := now }
        .ok (signal_counter,
          { s with signalCounter := signal_counter,
                   signals := (signal_counter, signal) :: s.signals })

/-- Embeds `approve_trade` (lib.rs 197-226).  The `signal_id` argument is
accepted but never used by the body; `RiskMetrics` is written only on the
final all-checks-passed path. -/
def approve_trade (s : Store) (signal_id : Nat) (risk_metrics : RiskMetrics) :
    Except VaultError (Bool × Store) :=
  match s.config with
  | none => .error .noConfig
  | some config =>
    if risk_metrics.var_95 > config.max_var_95 then .ok (false, s)
    else if RiskMetrics.sharpe_ratio_x100 risk_metrics <
        config.min_sharpe_ratio_x100 then .ok (false, s)
    else if risk_metrics.max_drawdown < -2000 then .ok (false, s)
    else if config.dynamic_stop_loss = true ∧
        risk_metrics.stop_loss_level < -1500 then .ok (false, s)
    else .ok (true, { s with riskMetrics := some risk_metrics })

/-- Zeroed `StrategyPerformance` used by the `unwrap_or` defaults
(lib.rs 287-295 and 350-358). -/
def defaultPerformance (strategy_name : String) : StrategyPerformance :=
  { strategy_name := strategy_name, total_trades := 0, winning_trades := 0,
    total_profit := 0, avg_return := 0, sharpe_ratio_x100 := 0, last_updated := 0 }

/-- Embeds `update_strategy_performance` (lib.rs 277-311).  Note the source
computes `avg_return` as `(total_profit as i32) / (total_trades as i32)`:
the i128 cumulative profit is truncated to i32 before dividing. -/
def update_strategy_performance (s : Store) (now : Nat) (strategy_name : String)
    (profit_loss : Int) (expected_return : Int) : Except VaultError Store :=
  let perf := (storeGet s.strategies strategy_name).getD
    (defaultPerformance strategy_name)
  match incU32 perf.total_trades with
  | .error e => .error e
  | .ok total_trades =>
    match (if profit_loss > 0 then incU32 perf.winning_trades
           else .ok perf.winning_trades) with
    | .error e => .error e
    | .ok winning_trades =>
      match addI128 perf.total_profit profit_loss with
      | .error e => .error e
      | .ok total_profit =>
        match (if total_trades > 0 then
                 divI32 (toI32 total_profit) (toI32 (total_trades : Int))
               else .ok perf.avg_return) with
        | .error e => .error e
        | .ok avg_return =>
          .ok { s with strategies :=
            (strategy_name,
              { perf with total_trades := total_trades,
                          winning_trades := winning_trades,
                          total_profit := total_profit,
                          avg_return := avg_return,
                          last_updated := now }) :: s.strategies }

/-- Embeds `execute_trade` (lib.rs 229-274).  The signal is looked up but
never removed; `update_strategy_performance` runs after the trade record
and counter are written, in the same transition. -/
def execute_trade (s : Store) (now : Nat) (signal_id : Nat)
    (executed_price profit_loss : Int) : Except VaultError (Nat × Store) :=
  match s.config with
  | none => .error .noConfig
  | some _config =>
    match storeGet s.signals signal_id with
    | none => .error .notFound
    | some signal =>
      match incU64 s.tradeCounter with
      | .error e => .error e
      | .ok trade_counter =>
        let trade_record : TradeRecord :=
          { trade_id := trade_counter, signal_id := signal_id,
            asset := signal.asset, action := signal.action,
            amount := signal.amount, price := executed_price,
            strategy := signal.strategy, executed_at := now,
            profit_loss := profit_loss }
        let s1 : Store :=
          { s with trades := (trade_counter, trade_record) :: s.trades,
                   tradeCounter := trade_counter }
        match update_strategy_performance s1 now signal.strategy profit_loss
            signal.expected_return with
        | .error e => .error e
        | .ok s2 => .ok (trade_counter, s2)

/-- Embeds `create_snapshot` (lib.rs 314-344). -/
def create_snapshot (s : Store) (now : Nat) (total_value : Int)
    (num_assets : Nat) (cumulative_return : Int) :
    Except VaultError (Nat × Store) :=
  match s.config with
  | none => .error .noConfig
  | some _config =>
    match incU64 s.snapshotCounter with
    | .error e => .error e
    | .ok snapshot_counter =>
      let snapshot : PortfolioSnapshot :=
        { snapshot_id := snapshot_counter, timestamp := now,
          total_value := total_value, num_assets := num_assets,
          total_trades := s.tradeCounter, cumulative_return := cumulative_return }
      .ok (snapshot_counter,
        { s with snapshots := (snapshot_counter, snapshot) :: s.snapshots,
                 snapshotCounter := snapshot_counter,
                 latestSnapshot := some snapshot })

/-- Embeds `get_strategy_performance` (lib.rs 347-359). -/
def get_strategy_performance (s : Store) (strategy_name : String) :
    StrategyPerformance :=
  (storeGet s.strategies strategy_name).getD (defaultPerformance strategy_name)

/-- Embeds `get_trade` (lib.rs 362-366): `unwrap()` aborts when absent. -/
def get_trade (s : Store) (trade_id : Nat) : Except VaultError TradeRecord :=
  match storeGet s.trades trade_id with
  | some r => .ok r
  | none => .error .notFound

/-- Embeds `get_latest_snapshot` (lib.rs 369-380). -/
def get_latest_snapshot (s : Store) : PortfolioSnapshot :=
  s.latestSnapshot.getD
    { snapshot_id := 0, timestamp := 0, total_value := 0, num_assets := 0,
      total_trades := 0, cumulative_return := 0 }

/-- Embeds `get_total_trades` (lib.rs 383-387). -/
def get_total_trades (s : Store) : Nat := s.tradeCounter

/-- Embeds `emergency_halt` (lib.rs 390-396). -/
def emergency_halt (s : Store) : Except VaultError Store :=
  match s.config with
  | none => .error .noConfig
  | some config => .ok { s with config := some { config with halted := true } }

/-- Embeds `resume_trading` (lib.rs 399-405). -/
def resume_trading (s : Store) : Except VaultError Store :=
  match s.config with
  | none => .error .noConfig
  | some config => .ok { s with config := some { config with halted := false } }

/-- Embeds `get_config` (lib.rs 408-410): `unwrap()` aborts when absent. -/
def get_config (s : Store) : Except VaultError VaultConfig :=
  match s.config with
  | none => .error .noConfig
  | some config => .ok config

/-- Embeds `get_risk_metrics` (lib.rs 413-421). -/
def get_risk_metrics (s : Store) : RiskMetrics :=
  s.riskMetrics.getD
    { var_95 := 0, sharpe_ratio_x100 := 0, max_drawdown := 0,
      portfolio_volatility := 0, stop_loss_level := 0 }

/-- Embeds `is_operational` (lib.rs 424-427). -/
def is_operational (s : Store) : Except VaultError Bool :=
  match s.config with
  | none => .error .noConfig
  | some config => .ok (!config.halted)

/-- Embeds `update_risk_limits` (lib.rs 430-442). -/
def update_risk_limits (s : Store) (max_var_95 min_sharpe_ratio_x100 : Int) :
    Except VaultError Store :=
  match s.config with
  | none => .error .noConfig
  | some config =>
    let config' : VaultConfig :=
      { config with max_var_95 := max_var_95,
                    min_sharpe_ratio_x100 := min_sharpe_ratio_x100 }
    .ok { s with config := some config' }

/-- Embeds `set_dynamic_stop_loss` (lib.rs 445-451). -/
def set_dynamic_stop_loss (s : Store) (enabled : Bool) :
    Except VaultError Store :=
  match s.config with
  | none => .error .noConfig
  | some config =>
    .ok { s with config := some { config with dynamic_stop_loss := enabled } }

/-- One invocation of a public contract function, with its arguments.
`opRead` stands for any of the read accessors (`get_config`,
`get_risk_metrics`, `get_trade`, `get_strategy_performance`,
`get_latest_snapshot`, `get_total_trades`, `is_operational`), none of
which writes storage. -/
inductive Op where
  | opInit (now : Nat) (admin trading_agent risk_agent payment_agent : Address)
      (max_single_trade : Int)
  | opSubmit (now : Nat) (asset action : String) (amount : Int)
      (strategy : String) (confidence : Nat) (expected_return : Int)
  | opApprove (signal_id : Nat) (risk_metrics : RiskMetrics)
  | opExecute (now : Nat) (signal_id : Nat) (executed_price profit_loss : Int)
  | opSnapshot (now : Nat) (total_value : Int) (num_assets : Nat)
      (cumulative_return : Int)
  | opHalt
  | opResume
  | opUpdateRiskLimits (max_var_95 min_sharpe_ratio_x100 : Int)
  | opSetDynamicStopLoss (enabled : Bool)
  | opRead
deriving DecidableEq

/-- Observable outcome of one invocation. -/
inductive StepResult where
  | retUnit
  | retId (n : Nat)
  | retBool (b : Bool)
  | err (e : VaultError)
deriving DecidableEq

/-- Host-level semantics of one serialized invocation: a call that aborts
leaves the chain state unchanged (the Soroban host commits storage only on
normal return). -/
def step (s : Store) : Op → Store × StepResult
  | .opInit now a t r p m => (initializeVault s now a t r p m, .retUnit)
  | .opSubmit now asset action amount strategy confidence er =>
    match submit_trading_signal s now asset action amount strategy confidence er with
    | .ok (n, s') => (s', .retId n)
    | .error e => (s, .err e)
  | .opApprove sid m =>
    match approve_trade s sid m with
    | .ok (b, s') => (s', .retBool b)
    | .error e => (s, .err e)
  | .opExecute now sid price pl =>
    match execute_trade s now sid price pl with
    | .ok (n, s') => (s', .retId n)
    | .error e => (s, .err e)
  | .opSnapshot now tv na cr =>
    match create_snapshot s now tv na cr with
    | .ok (n, s') => (s', .retId n)
    | .error e => (s, .err e)
  | .opHalt =>
    match emergency_halt s with
    | .ok s' => (s', .retUnit)
    | .error e => (s, .err e)
  | .opResume =>
    match resume_trading s with
    | .ok s' => (s', .retUnit)
    | .error e => (s, .err e)
  | .opUpdateRiskLimits a b =>
    match update_risk_limits s a b with
    | .ok s' => (s', .retUnit)
    | .error e => (s, .err e)
  | .opSetDynamicStopLoss en =>
    match set_dynamic_stop_loss s en with
    | .ok s' => (s', .retUnit)
    | .error e => (s, .err e)
  | .opRead => (s, .retUnit)

/-- Recognizer for `opInit`. -/
def isInitOp : Op → Bool
  | .opInit .. => true
  | _ => false

/-- Recognizer for `opSubmit`. -/
def isSubmitOp : Op → Bool
  | .opSubmit .. => true
  | _ => false

/-- Recognizer for `opExecute`. -/
def isExecuteOp : Op → Bool
  | .opExecute .. => true
  | _ => false

/-- Recognizer for `opSnapshot`. -/
def isSnapshotOp : Op → Bool
  | .opSnapshot .. => true
  | _ => false

/-- True when the call sequence contains no `initialize` call. -/
def opsNoInit (ops : List Op) : Bool := ops.all (fun o => !isInitOp o)

/-- State after running a serialized call sequence. -/
def finalStore (s : Store) : List Op → Store
  | [] => s
  | op :: rest => finalStore (step s op).1 rest

/-- Observable outcomes of a serialized call sequence, in order. -/
def traceOut (s : Store) : List Op → List StepResult
  | [] => []
  | op :: rest => (step s op).2 :: traceOut (step s op).1 rest

/-- The identifier carried by an outcome, when there is one. -/
def retIdOf : StepResult → Option Nat
  | .retId n => some n
  | _ => none

/-- Identifiers returned by the successful calls selected by `p`, in call
order. -/
def idsOf (p : Op → Bool) (s : Store) : List Op → List Nat
  | [] => []
  | op :: rest =>
    (if p op then (retIdOf (step s op).2).toList else []) ++
      idsOf p (step s op).1 rest

/-- Signal ids returned by successful `submit_trading_signal` calls. -/
def submitIds (s : Store) (ops : List Op) : List Nat := idsOf isSubmitOp s ops

/-- Trade ids returned by successful `execute_trade` calls. -/
def tradeIds (s : Store) (ops : List Op) : List Nat := idsOf isExecuteOp s ops

/-- Snapshot ids returned by successful `create_snapshot` calls. -/
def snapshotIds (s : Store) (ops : List Op) : List Nat :=
  idsOf isSnapshotOp s ops

/-- Boolean decision of an `approve_trade` result, when the call did not
abort. -/
def decisionOf (r : Except VaultError (Bool × Store)) : Option Bool :=
  match r with
  | .ok (b, _) => some b
  | .error _ => none

/-- Returned id of a successful id-returning call. -/
def resultId (r : Except VaultError (Nat × Store)) : Option Nat :=
  match r with
  | .ok (n, _) => some n
  | .error _ => none

/-- Post-state of a successful id-returning call. -/
def resultStore (r : Except VaultError (Nat × Store)) : Option Store :=
  match r with
  | .ok (_, s) => some s
  | .error _ => none

/-- The approval decision exactly as the specification words it: false iff
`var_95 > max_var_95`, or the risk-adjusted-return ratio is below the
configured minimum, or `max_drawdown < -2000`, or dynamic stop-loss is
enabled and `stop_loss_level < -1500`; true otherwise. -/
def approve_trade_spec (config : VaultConfig) (m : RiskMetrics) : Bool :=
  !(decide (m.var_95 > config.max_var_95) ||
    decide (RiskMetrics.sharpe_ratio_x100 m < config.min_sharpe_ratio_x100) ||
    decide (m.max_drawdown < -2000) ||
    (config.dynamic_stop_loss && decide (m.stop_loss_level < -1500)))

/-- Configuration produced by `initialize(admin=1, trading=2, risk=3,
payment=4, max_single_trade=1000000)` at time 0. -/
def cfgDemo : VaultConfig :=
  { admin := 1, trading_agent := 2, risk_agent := 3, payment_agent := 4,
    max_single_trade := 1000000, max_var_95 := 500,
    min_sharpe_ratio_x100 := 100, dynamic_stop_loss := true, halted := false,
    created_at := 0, version := 2 }

/-- A freshly initialized vault. -/
def demoStore : Store := { emptyStore with config := some cfgDemo }

/-- An initialized vault whose admin has called `emergency_halt`. -/
def demoHalted : Store :=
  { emptyStore with config := some { cfgDemo with halted := true } }

/-- Metrics passing all four thresholds of `cfgDemo` (spec example:
var 300 ≤ 500, ratio 150 ≥ 100, drawdown −1000 ≥ −2000). -/
def metricsGood : RiskMetrics :=
  { var_95 := 300, sharpe_ratio_x100 := 150, max_drawdown := -1000,
    portfolio_volatility := 20, stop_loss_level := 0 }

/-- Metrics failing the VaR threshold of `cfgDemo` (spec example:
var 600 > 500). -/
def metricsBadVar : RiskMetrics :=
  { var_95 := 600, sharpe_ratio_x100 := 150, max_drawdown := -1000,
    portfolio_volatility := 20, stop_loss_level := 0 }

/-- The pending signal of the spec's example scenario. -/
def sigLSTM : TradingSignal :=
  { signal_id := 1, asset := "BTC", action := "BUY", amount := 100000,
    strategy := "LSTM", confidence := 85, expected_return := 250,
    timestamp := 1 }

/-- A strategy rollup holding a cumulative profit of 2^30 after one winning
trade. -/
def perfHalf : StrategyPerformance :=
  { strategy_name := "LSTM", total_trades := 1, winning_trades := 1,
    total_profit := 1073741824, avg_return := 1073741824,
    sharpe_ratio_x100 := 0, last_updated := 0 }

/-- Initialized vault holding the pending signal 1 and the `perfHalf`
rollup for strategy LSTM. -/
def c4Store : Store :=
  { demoStore with signalCounter := 1, signals := [(1, sigLSTM)],
                   strategies := [("LSTM", perfHalf)] }

/-- Initialized vault with nonempty counters, for exercising
re-initialization. -/
def c6Store : Store :=
  { demoStore with signalCounter := 2, tradeCounter := 1, snapshotCounter := 1 }

/-- Call sequence of the spec's example scenario, extended with a second
`execute_trade` for the same signal id. -/
def opsDoubleExec : List Op :=
  [Op.opInit 0 1 2 3 4 1000000,
   Op.opSubmit 1 "BTC" "BUY" 100000 "LSTM" 85 250,
   Op.opExecute 2 1 450000000000 5000,
   Op.opExecute 3 1 450000000000 5000]

/-- Call sequence that re-initializes the vault between two submissions. -/
def opsReInit : List Op :=
  [Op.opInit 0 1 2 3 4 1000000,
   Op.opSubmit 1 "BTC" "BUY" 100000 "LSTM" 85 250,
   Op.opInit 2 1 2 3 4 1000000,
   Op.opSubmit 3 "ETH" "SELL" 50000 "DQN" 60 100]

/-- An `initialize`-free call sequence mixing successful, failing, and
read-only calls of every kind. -/
def opsMixed : List Op :=
  [Op.opSubmit 1 "BTC" "BUY" 100000 "LSTM" 85 250,
   Op.opRead,
   Op.opApprove 1 metricsGood,
   Op.opSubmit 2 "ETH" "BUY" 2000000 "DQN" 60 100,
   Op.opSubmit 3 "ETH" "BUY" 50000 "DQN" 60 100,
   Op.opExecute 4 1 450000000000 5000,
   Op.opExecute 5 99 450000000000 5000,
   Op.opSnapshot 6 10000000000000 5 1500]

/-- Post-state of the first `execute_trade` of the double-execution
scenario (extracted from the computed result). -/
def c5Post : Store :=
  (resultStore (execute_trade c4Store 7 1 5 1073741824)).getD emptyStore

/-- Full postcondition of a successful `create_snapshot` call: the returned
id is the incremented snapshot counter, the built snapshot copies the trade
counter read-only, it is stored under its own id and under the latest slot,
and every other storage field is unchanged. -/
def createSnapshotSpec (s : Store) (now : Nat) (total_value : Int)
    (num_assets : Nat) (cumulative_return : Int) : Prop :=
  ∃ snap s',
    create_snapshot s now total_value num_assets cumulative_return =
      .ok (s.snapshotCounter + 1, s') ∧
    snap = { snapshot_id := s.snapshotCounter + 1, timestamp := now,
             total_value := total_value, num_assets := num_assets,
             total_trades := s.tradeCounter,
             cumulative_return := cumulative_return } ∧
    s'.config = s.config ∧
    s'.signalCounter = s.signalCounter ∧
    s'.tradeCounter = s.tradeCounter ∧
    s'.trades = s.trades ∧
    s'.signals = s.signals ∧
    s'.strategies = s.strategies ∧
    s'.riskMetrics = s.riskMetrics ∧
    s'.snapshotCounter = s.snapshotCounter + 1 ∧
    storeGet s'.snapshots (s.snapshotCounter + 1) = some snap ∧
    s'.latestSnapshot = some snap ∧
    get_latest_snapshot s' = snap ∧
    (s.tradeCounter = 0 → PortfolioSnapshot.total_trades (get_latest_snapshot s') = 0)

end AITreasuryVault

namespace AITreasuryVault

/-! Helper lemmas shared by the claim theorems. -/

theorem incU64_ok {n m : Nat} (h : incU64 n = .ok m) : m = n + 1 := by
  unfold incU64 at h
  split at h
  · exact (Except.ok.injEq _ _).mp h |>.symm
  · exact absurd h (by simp)

theorem approve_state {s : Store} {signal_id : Nat} {m : RiskMetrics}
    {b : Bool} {s' : Store} (h : approve_trade s signal_id m = .ok (b, s')) :
    (b = false ∧ s' = s) ∨
    (b = true ∧ s' = { s with riskMetrics := some m }) := by
  unfold approve_trade at h
  split at h
  · exact absurd h (by simp)
  · split_ifs at h <;>
      simp only [Except.ok.injEq, Prod.mk.injEq] at h <;>
      first
        | exact Or.inl ⟨h.1.symm, h.2.symm⟩
        | exact Or.inr ⟨h.1.symm, h.2.symm⟩

theorem submit_ok_facts {s : Store} {now : Nat} {asset action : String}
    {amount : Int} {strategy : String} {confidence : Nat}
    {expected_return : Int} {n : Nat} {s' : Store}
    (h : submit_trading_signal s now asset action amount strategy confidence
      expected_return = .ok (n, s')) :
    n = s.signalCounter + 1 ∧ s'.signalCounter = s.signalCounter + 1 ∧
    s'.tradeCounter = s.tradeCounter ∧
    s'.snapshotCounter = s.snapshotCounter := by
  unfold submit_trading_signal at h
  split at h
  · exact absurd h (by simp)
  · split_ifs at h
    split at h
    · exact absurd h (by simp)
    · rename_i sc hinc
      have hm := incU64_ok hinc
      subst hm
      simp only [Except.ok.injEq, Prod.mk.injEq] at h
      obtain ⟨hn, hs⟩ := h
      subst hn
      rw [← hs]
      exact ⟨rfl, rfl, rfl, rfl⟩

theorem usp_ok_frame {s : Store} {now : Nat} {strategy_name : String}
    {profit_loss expected_return : Int} {s2 : Store}
    (h : update_strategy_performance s now strategy_name profit_loss
      expected_return = .ok s2) :
    s2.config = s.config ∧ s2.tradeCounter = s.tradeCounter ∧
    s2.signalCounter = s.signalCounter ∧
    s2.snapshotCounter = s.snapshotCounter ∧ s2.trades = s.trades ∧
    s2.signals = s.signals ∧ s2.snapshots = s.snapshots ∧
    s2.riskMetrics = s.riskMetrics ∧
    s2.latestSnapshot = s.latestSnapshot := by
  simp only [update_strategy_performance] at h
  repeat' split at h
  all_goals
    first
      | exact Except.noConfusion h
      | (simp only [Except.ok.injEq] at h
         rw [← h]
         exact ⟨rfl, rfl, rfl, rfl, rfl, rfl, rfl, rfl, rfl⟩)

theorem execute_ok_facts {s : Store} {now : Nat} {signal_id : Nat}
    {executed_price profit_loss : Int} {n : Nat} {s' : Store}
    (h : execute_trade s now signal_id executed_price profit_loss
      = .ok (n, s')) :
    n = s.tradeCounter + 1 ∧ s'.tradeCounter = s.tradeCounter + 1 ∧
    s'.signalCounter = s.signalCounter ∧
    s'.snapshotCounter = s.snapshotCounter ∧ s'.signals = s.signals ∧
    s'.config = s.config ∧
    (∃ sig, storeGet s.signals signal_id = some sig) := by
  unfold execute_trade at h
  split at h
  · exact absurd h (by simp)
  · split at h
    · exact absurd h (by simp)
    · rename_i signal hsig
      split at h
      · exact absurd h (by simp)
      · rename_i tc hinc
        have hm := incU64_ok hinc
        subst hm
        cases husp : update_strategy_performance
            { s with
                trades := (s.tradeCounter + 1,
                  { trade_id := s.tradeCounter + 1, signal_id := signal_id,
                    asset := signal.asset, action := signal.action,
                    amount := signal.amount, price := executed_price,
                    strategy := signal.strategy, executed_at := now,
                    profit_loss := profit_loss }) :: s.trades,
                tradeCounter := s.tradeCounter + 1 } now
            signal.strategy profit_loss signal.expected_return with
        | error e =>
          simp only [husp] at h
          exact Except.noConfusion h
        | ok s2 =>
          simp only [husp] at h
          have hf := usp_ok_frame husp
          simp only [Except.ok.injEq, Prod.mk.injEq] at h
          obtain ⟨hn, hs⟩ := h
          subst hn
          rw [← hs]
          exact ⟨rfl, hf.2.1, hf.2.2.1, hf.2.2.2.1, hf.2.2.2.2.2.1, hf.1,
            ⟨signal, hsig⟩⟩

theorem snapshot_ok_facts {s : Store} {now : Nat} {total_value : Int}
    {num_assets : Nat} {cumulative_return : Int} {n : Nat} {s' : Store}
    (h : create_snapshot s now total_value num_assets cumulative_return
      = .ok (n, s')) :
    n = s.snapshotCounter + 1 ∧
    s'.snapshotCounter = s.snapshotCounter + 1 ∧
    s'.signalCounter = s.signalCounter ∧
    s'.tradeCounter = s.tradeCounter := by
  unfold create_snapshot at h
  split at h
  · exact absurd h (by simp)
  · split at h
    · exact absurd h (by simp)
    · rename_i sc hinc
      have hm := incU64_ok hinc
      subst hm
      simp only [Except.ok.injEq, Prod.mk.injEq] at h
      obtain ⟨hn, hs⟩ := h
      subst hn
      rw [← hs]
      exact ⟨rfl, rfl, rfl, rfl⟩

theorem halt_counters {s s' : Store} (h : emergency_halt s = .ok s') :
    s'.signalCounter = s.signalCounter ∧ s'.tradeCounter = s.tradeCounter ∧
    s'.snapshotCounter = s.snapshotCounter := by
  unfold emergency_halt at h
  split at h
  · exact absurd h (by simp)
  · simp only [Except.ok.injEq] at h; rw [← h]; exact ⟨rfl, rfl, rfl⟩

theorem resume_counters {s s' : Store} (h : resume_trading s = .ok s') :
    s'.signalCounter = s.signalCounter ∧ s'.tradeCounter = s.tradeCounter ∧
    s'.snapshotCounter = s.snapshotCounter := by
  unfold resume_trading at h
  split at h
  · exact absurd h (by simp)
  · simp only [Except.ok.injEq] at h; rw [← h]; exact ⟨rfl, rfl, rfl⟩

theorem limits_counters {s s' : Store} {a b : Int}
    (h : update_risk_limits s a b = .ok s') :
    s'.signalCounter = s.signalCounter ∧ s'.tradeCounter = s.tradeCounter ∧
    s'.snapshotCounter = s.snapshotCounter := by
  unfold update_risk_limits at h
  split at h
  · exact absurd h (by simp)
  · simp only [Except.ok.injEq] at h; rw [← h]; exact ⟨rfl, rfl, rfl⟩

theorem sdsl_counters {s s' : Store} {en : Bool}
    (h : set_dynamic_stop_loss s en = .ok s') :
    s'.signalCounter = s.signalCounter ∧ s'.tradeCounter = s.tradeCounter ∧
    s'.snapshotCounter = s.snapshotCounter := by
  unfold set_dynamic_stop_loss at h
  split at h
  · exact absurd h (by simp)
  · simp only [Except.ok.injEq] at h; rw [← h]; exact ⟨rfl, rfl, rfl⟩

/-- C1: `approve_trade` is a pure decision over the supplied risk metrics
and the stored configuration: for every `RiskMetrics` and every stored
configuration it returns false iff `var_95 > max_var_95`, or the
risk-adjusted-return ratio is below the configured minimum, or
`max_drawdown < -2000`, or dynamic stop-loss is enabled and
`stop_loss_level < -1500`; otherwise true (all four thresholds must pass,
a logical AND, with the −2000 and −1500 bounds fixed and the stop-loss
check gated on `dynamic_stop_loss`). -/
theorem claim_C1_approve_decision (s : Store) (cfg : VaultConfig)
    (signal_id : Nat) (m : RiskMetrics) (h : s.config = some cfg) :
    decisionOf (approve_trade s signal_id m) =
      some (approve_trade_spec cfg m) := by
  by_cases h1 : m.var_95 > cfg.max_var_95 <;>
    by_cases h2 : RiskMetrics.sharpe_ratio_x100 m <
      cfg.min_sharpe_ratio_x100 <;>
    by_cases h3 : m.max_drawdown < -2000 <;>
    by_cases h4 : cfg.dynamic_stop_loss = true <;>
    by_cases h5 : m.stop_loss_level < -1500 <;>
    simp [approve_trade, approve_trade_spec, decisionOf, h, h1, h2, h3, h4,
      h5]

/-- Witness for C1: on the spec's example metrics (var 300, ratio 150,
drawdown −1000) against the default configuration, the decision is
computable and approves. -/
theorem claim_C1_witness :
    demoStore.config = some cfgDemo ∧
    decisionOf (approve_trade demoStore 1 metricsGood) =
      some (approve_trade_spec cfgDemo metricsGood) ∧
    approve_trade_spec cfgDemo metricsGood = true :=
  ⟨rfl, claim_C1_approve_decision demoStore cfgDemo 1 metricsGood rfl,
    by decide⟩

set_option maxRecDepth 20000 in
/-- Counterexample to C2 as stated: a rejected evaluation is NOT persisted.
`approve_trade` on metrics failing the VaR check returns false and leaves
the store unchanged, so `get_risk_metrics` still returns the zero default,
not the metrics passed to the most recent `approve_trade` call. -/
theorem claim_C2_cex :
    approve_trade demoStore 1 metricsBadVar = .ok (false, demoStore) ∧
    get_risk_metrics demoStore ≠ metricsBadVar :=
  ⟨rfl, by decide⟩

/-- C2 (amended): the `RiskMetrics` argument is persisted only when
`approve_trade` returns true; when it returns false the store is unchanged.
Consequently `get_risk_metrics` reflects the input of the most recent
approving call, not of every call. -/
theorem claim_C2_amended (s : Store) (signal_id : Nat) (m : RiskMetrics)
    (b : Bool) (s' : Store)
    (h : approve_trade s signal_id m = .ok (b, s')) :
    (b = true → s'.riskMetrics = some m ∧ get_risk_metrics s' = m) ∧
    (b = false → s' = s) := by
  rcases approve_state h with ⟨hb, hs⟩ | ⟨hb, hs⟩
  · subst hb; subst hs
    exact ⟨fun hh => Bool.noConfusion hh, fun _ => rfl⟩
  · subst hb; subst hs
    exact ⟨fun _ => ⟨rfl, rfl⟩, fun hh => Bool.noConfusion hh⟩

set_option maxRecDepth 20000 in
/-- Witness for C2 (amended): an approving call persists its metrics. -/
theorem claim_C2_witness :
    approve_trade demoStore 1 metricsGood =
      .ok (true, { demoStore with riskMetrics := some metricsGood }) ∧
    get_risk_metrics { demoStore with riskMetrics := some metricsGood } =
      metricsGood := by
  have h : approve_trade demoStore 1 metricsGood =
      .ok (true, { demoStore with riskMetrics := some metricsGood }) := rfl
  exact ⟨h, ((claim_C2_amended demoStore 1 metricsGood true _ h).1 rfl).2⟩

/-- C3: `submit_trading_signal` fails with the distinct `systemHalted`
condition when the configuration is halted, fails with the distinct
`limitExceeded` condition when the amount exceeds `max_single_trade`, and
on failure no state is written (the host leaves the store unchanged, so in
particular the signal counter is unchanged and no signal is stored).
Otherwise it increments the signal counter by one, stores a signal carrying
that counter value as `signal_id` and the current timestamp, and returns
that id. -/
theorem claim_C3_submit (s : Store) (cfg : VaultConfig) (now : Nat)
    (asset action : String) (amount : Int) (strategy : String)
    (confidence : Nat) (expected_return : Int) (h : s.config = some cfg) :
    (cfg.halted = true →
      submit_trading_signal s now asset action amount strategy confidence
        expected_return = .error .systemHalted) ∧
    (cfg.halted = false → amount > cfg.max_single_trade →
      submit_trading_signal s now asset action amount strategy confidence
        expected_return = .error .limitExceeded) ∧
    VaultError.systemHalted ≠ VaultError.limitExceeded ∧
    (∀ e, submit_trading_signal s now asset action amount strategy confidence
        expected_return = .error e →
      step s (Op.opSubmit now asset action amount strategy confidence
        expected_return) = (s, .err e)) ∧
    (cfg.halted = false → ¬ amount > cfg.max_single_trade →
      s.signalCounter + 1 < 2 ^ 64 →
      submit_trading_signal s now asset action amount strategy confidence
        expected_return = .ok (s.signalCounter + 1,
        { s with signalCounter := s.signalCounter + 1,
                 signals := (s.signalCounter + 1,
                   { signal_id := s.signalCounter + 1, asset := asset,
                     action := action, amount := amount,
                     strategy := strategy, confidence := confidence,
                     expected_return := expected_return,
                     timestamp := now }) :: s.signals })) := by
  refine ⟨?_, ?_, by decide, ?_, ?_⟩
  · intro hh
    simp [submit_trading_signal, h, hh]
  · intro hh ha
    simp [submit_trading_signal, h, hh, ha]
  · intro e he
    simp [step, he]
  · intro hh ha hc
    have hc' : s.signalCounter + 1 < 18446744073709551616 := hc
    simp [submit_trading_signal, h, hh, ha, incU64, hc']

/-- Witness for C3: a halted vault rejects with `systemHalted`, an
over-limit amount rejects with `limitExceeded`, and the spec's example
submission stores signal 1. -/
theorem claim_C3_witness :
    submit_trading_signal demoHalted 1 "BTC" "BUY" 100000 "LSTM" 85 250 =
      .error .systemHalted ∧
    submit_trading_signal demoStore 1 "BTC" "BUY" 2000000 "LSTM" 85 250 =
      .error .limitExceeded ∧
    submit_trading_signal demoStore 1 "BTC" "BUY" 100000 "LSTM" 85 250 =
      .ok (1, { demoStore with signalCounter := 1, signals := [(1, sigLSTM)] }) := by
  refine ⟨?_, ?_, ?_⟩
  · exact (claim_C3_submit demoHalted { cfgDemo with halted := true } 1
      "BTC" "BUY" 100000 "LSTM" 85 250 rfl).1 rfl
  · exact (claim_C3_submit demoStore cfgDemo 1 "BTC" "BUY" 2000000 "LSTM"
      85 250 rfl).2.1 rfl (by decide)
  · exact (claim_C3_submit demoStore cfgDemo 1 "BTC" "BUY" 100000 "LSTM"
      85 250 rfl).2.2.2.2 rfl (by decide) (by decide)

set_option maxRecDepth 20000 in
/-- C4 evaluated at a failing input: the source computes `avg_return` as
`(total_profit as i32) / (total_trades as i32)`, truncating the i128
cumulative profit to i32 BEFORE dividing.  With a prior cumulative profit
of 2^30 and a second winning trade of 2^30, the claimed value is the exact
quotient 2^31 / 2 = 1073741824, which fits in i32; the code instead stores
`toI32 2147483648 / 2 = -1073741824`. -/
theorem claim_C4_eval :
    resultId (execute_trade c4Store 7 1 5 1073741824) = some 1 ∧
    (resultStore (execute_trade c4Store 7 1 5 1073741824)).map
      (fun s' => ((get_strategy_performance s' "LSTM").total_trades,
                  (get_strategy_performance s' "LSTM").total_profit,
                  (get_strategy_performance s' "LSTM").avg_return)) =
      some (2, 2147483648, -1073741824) ∧
    Int.tdiv 2147483648 2 = 1073741824 ∧
    ((-1073741824 : Int) ≠ (1073741824 : Int)) :=
  ⟨rfl, rfl, by decide, by decide⟩

set_option maxRecDepth 20000 in
/-- Counterexample to C5 as stated: a signal is NOT consumed by execution.
Running the spec's example scenario and then calling `execute_trade` a
second time with the same `signal_id` succeeds again (`retId 2`) and stores
a second `TradeRecord` referencing signal 1. -/
theorem claim_C5_cex :
    traceOut emptyStore opsDoubleExec =
      [StepResult.retUnit, StepResult.retId 1, StepResult.retId 1,
       StepResult.retId 2] ∧
    (storeGet (finalStore emptyStore opsDoubleExec).trades 2).map
      (fun r => (TradeRecord.trade_id r, TradeRecord.signal_id r)) =
      some (2, 1) :=
  ⟨rfl, rfl⟩

/-- C5 (amended): `execute_trade` never removes or modifies stored signals:
after a successful execution the signal map is unchanged and the executed
signal is still present (it was present before, and remains retrievable
under the same id), so the same `signal_id` can be executed again,
producing another `TradeRecord` that references it. -/
theorem claim_C5_amended (s : Store) (now : Nat) (signal_id : Nat)
    (executed_price profit_loss : Int) (n : Nat) (s' : Store)
    (h : execute_trade s now signal_id executed_price profit_loss
      = .ok (n, s')) :
    s'.signals = s.signals ∧ s'.config = s.config ∧
    storeGet s'.signals signal_id = storeGet s.signals signal_id ∧
    (∃ sig, storeGet s.signals signal_id = some sig) := by
  have hf := execute_ok_facts h
  exact ⟨hf.2.2.2.2.1, hf.2.2.2.2.2.1, by rw [hf.2.2.2.2.1],
    hf.2.2.2.2.2.2⟩

set_option maxRecDepth 20000 in
/-- Witness for C5 (amended): after executing signal 1 the signal map is
unchanged and signal 1 is still stored. -/
theorem claim_C5_witness :
    execute_trade c4Store 7 1 5 1073741824 = .ok (1, c5Post) ∧
    c5Post.signals = c4Store.signals ∧
    storeGet c4Store.signals 1 = some sigLSTM := by
  have h : execute_trade c4Store 7 1 5 1073741824 = .ok (1, c5Post) := rfl
  exact ⟨h, (claim_C5_amended c4Store 7 1 5 1073741824 1 c5Post h).1, rfl⟩

set_option maxRecDepth 20000 in
/-- C6 evaluated at the failing input: `initialize` on an
already-initialized instance (configuration present, counters 2/1/1) does
not fail; it silently overwrites the configuration and resets all three
counters to zero. -/
theorem claim_C6_eval :
    c6Store.config = some cfgDemo ∧
    c6Store.signalCounter = 2 ∧ c6Store.tradeCounter = 1 ∧
    c6Store.snapshotCounter = 1 ∧
    (initializeVault c6Store 9 11 12 13 14 555).config ≠ some cfgDemo ∧
    (initializeVault c6Store 9 11 12 13 14 555).signalCounter = 0 ∧
    (initializeVault c6Store 9 11 12 13 14 555).tradeCounter = 0 ∧
    (initializeVault c6Store 9 11 12 13 14 555).snapshotCounter = 0 :=
  ⟨rfl, rfl, rfl, rfl, by decide, rfl, rfl, rfl⟩

/-- C8: `execute_trade` with a `signal_id` for which no signal is stored
fails with the `notFound` condition, and on that failure no state is
written: the host-level step leaves the store (in particular the trade
counter, trade records and strategy records) unchanged. -/
theorem claim_C8_notfound (s : Store) (cfg : VaultConfig) (now : Nat)
    (signal_id : Nat) (executed_price profit_loss : Int)
    (h : s.config = some cfg)
    (hs : storeGet s.signals signal_id = none) :
    execute_trade s now signal_id executed_price profit_loss =
      .error .notFound ∧
    step s (Op.opExecute now signal_id executed_price profit_loss) =
      (s, .err .notFound) := by
  have h1 : execute_trade s now signal_id executed_price profit_loss =
      .error .notFound := by
    simp [execute_trade, h, hs]
  exact ⟨h1, by simp [step, h1]⟩

/-- Witness for C8: executing a never-submitted signal id on a fresh vault
fails with `notFound` and leaves the store unchanged. -/
theorem claim_C8_witness :
    execute_trade demoStore 2 1 450000000000 5000 = .error .notFound ∧
    step demoStore (Op.opExecute 2 1 450000000000 5000) =
      (demoStore, .err .notFound) :=
  claim_C8_notfound demoStore cfgDemo 2 1 450000000000 5000 rfl rfl

/-- C9: `create_snapshot` reads the trade counter without mutating it and
leaves all state outside the snapshot ledger unchanged (configuration,
signal counter, trade counter, trades, signals, strategies, risk metrics);
it increments only the snapshot counter, stores the snapshot under its own
id and under the latest slot, and returns the id; a snapshot taken after
zero executed trades records `total_trades = 0` and is what
`get_latest_snapshot` returns. -/
theorem claim_C9_snapshot (s : Store) (cfg : VaultConfig) (now : Nat)
    (total_value : Int) (num_assets : Nat) (cumulative_return : Int)
    (h : s.config = some cfg) (hc : s.snapshotCounter + 1 < 2 ^ 64) :
    createSnapshotSpec s now total_value num_assets cumulative_return := by
  have hc' : s.snapshotCounter + 1 < 18446744073709551616 := hc
  have hcs : create_snapshot s now total_value num_assets cumulative_return =
      Except.ok (s.snapshotCounter + 1, Store.mk s.config s.tradeCounter
        s.signalCounter (s.snapshotCounter + 1) s.trades s.signals
        s.strategies ((s.snapshotCounter + 1, PortfolioSnapshot.mk
          (s.snapshotCounter + 1) now total_value num_assets s.tradeCounter
          cumulative_return) :: s.snapshots) s.riskMetrics
        (some (PortfolioSnapshot.mk (s.snapshotCounter + 1) now total_value
          num_assets s.tradeCounter cumulative_return))) := by
    simp [create_snapshot, h, incU64, hc']
  refine ⟨_, _, hcs, rfl, rfl, rfl, rfl, rfl, rfl, rfl, rfl, rfl, ?_,
    rfl, rfl, fun h0 => h0⟩
  simp [storeGet]

/-- Witness for C9: the spec's example snapshot after zero trades. -/
theorem claim_C9_witness :
    createSnapshotSpec demoStore 6 10000000000000 5 1500 ∧
    get_total_trades demoStore = 0 :=
  ⟨claim_C9_snapshot demoStore cfgDemo 6 10000000000000 5 1500 rfl
    (by decide), rfl⟩

/-- C10: the result and state effect of `approve_trade` are independent of
its `signal_id` argument: two calls with different ids and the same metrics
on the same store return identical results (decision and post-state), and a
returning call never changes the stored signals or trades (it neither
marks nor removes any signal). -/
theorem claim_C10_signal_independent (s : Store) (a b : Nat)
    (m : RiskMetrics) :
    approve_trade s a m = approve_trade s b m ∧
    (∀ bb s', approve_trade s a m = .ok (bb, s') →
      s'.signals = s.signals ∧ s'.trades = s.trades) := by
  refine ⟨rfl, ?_⟩
  intro bb s' h
  rcases approve_state h with ⟨_, hs⟩ | ⟨_, hs⟩ <;> subst hs <;>
    exact ⟨rfl, rfl⟩

set_option maxRecDepth 20000 in
/-- Witness for C10: ids 1 and 999 (the latter never submitted) give the
same outcome, and the approving call leaves the signal map unchanged. -/
theorem claim_C10_witness :
    approve_trade demoStore 1 metricsGood =
      approve_trade demoStore 999 metricsGood ∧
    ({ demoStore with riskMetrics := some metricsGood } : Store).signals =
      demoStore.signals := by
  have h : approve_trade demoStore 1 metricsGood =
      .ok (true, { demoStore with riskMetrics := some metricsGood }) := rfl
  exact ⟨(claim_C10_signal_independent demoStore 1 999 metricsGood).1,
    ((claim_C10_signal_independent demoStore 1 999 metricsGood).2 true _
      h).1⟩

theorem step_counter_facts (s : Store) (op : Op)
    (hop : isInitOp op = false) :
    ((isSubmitOp op = true →
       ((step s op).2 = .retId (s.signalCounter + 1) ∧
         (step s op).1.signalCounter = s.signalCounter + 1) ∨
       (∃ e, step s op = (s, .err e))) ∧
     (isSubmitOp op = false →
       (step s op).1.signalCounter = s.signalCounter)) ∧
    ((isExecuteOp op = true →
       ((step s op).2 = .retId (s.tradeCounter + 1) ∧
         (step s op).1.tradeCounter = s.tradeCounter + 1) ∨
       (∃ e, step s op = (s, .err e))) ∧
     (isExecuteOp op = false →
       (step s op).1.tradeCounter = s.tradeCounter)) ∧
    ((isSnapshotOp op = true →
       ((step s op).2 = .retId (s.snapshotCounter + 1) ∧
         (step s op).1.snapshotCounter = s.snapshotCounter + 1) ∨
       (∃ e, step s op = (s, .err e))) ∧
     (isSnapshotOp op = false →
       (step s op).1.snapshotCounter = s.snapshotCounter)) := by
  cases op with
  | opInit now a t r pp mm => simp [isInitOp] at hop
  | opSubmit now asset action amount strategy confidence er =>
    rcases hr : submit_trading_signal s now asset action amount strategy
        confidence er with e | ⟨n, s'⟩
    · exact ⟨⟨fun _ => Or.inr ⟨e, by simp [step, hr]⟩,
        fun hf => by simp [isSubmitOp] at hf⟩,
        ⟨fun hf => by simp [isExecuteOp] at hf, fun _ => by simp [step, hr]⟩,
        ⟨fun hf => by simp [isSnapshotOp] at hf,
          fun _ => by simp [step, hr]⟩⟩
    · obtain ⟨hn, h1, h2, h3⟩ := submit_ok_facts hr
      subst hn
      exact ⟨⟨fun _ => Or.inl ⟨by simp [step, hr], by simp [step, hr, h1]⟩,
        fun hf => by simp [isSubmitOp] at hf⟩,
        ⟨fun hf => by simp [isExecuteOp] at hf,
          fun _ => by simp [step, hr, h2]⟩,
        ⟨fun hf => by simp [isSnapshotOp] at hf,
          fun _ => by simp [step, hr, h3]⟩⟩
  | opApprove sid mm =>
    rcases hr : approve_trade s sid mm with e | ⟨b, s'⟩
    · exact ⟨⟨fun hf => by simp [isSubmitOp] at hf,
        fun _ => by simp [step, hr]⟩,
        ⟨fun hf => by simp [isExecuteOp] at hf, fun _ => by simp [step, hr]⟩,
        ⟨fun hf => by simp [isSnapshotOp] at hf,
          fun _ => by simp [step, hr]⟩⟩
    · rcases approve_state hr with ⟨_, hs⟩ | ⟨_, hs⟩ <;> subst hs <;>
        exact ⟨⟨fun hf => by simp [isSubmitOp] at hf,
          fun _ => by simp [step, hr]⟩,
          ⟨fun hf => by simp [isExecuteOp] at hf,
            fun _ => by simp [step, hr]⟩,
          ⟨fun hf => by simp [isSnapshotOp] at hf,
            fun _ => by simp [step, hr]⟩⟩
  | opExecute now sid price pl =>
    rcases hr : execute_trade s now sid price pl with e | ⟨n, s'⟩
    · exact ⟨⟨fun hf => by simp [isSubmitOp] at hf,
        fun _ => by simp [step, hr]⟩,
        ⟨fun _ => Or.inr ⟨e, by simp [step, hr]⟩,
          fun hf => by simp [isExecuteOp] at hf⟩,
        ⟨fun hf => by simp [isSnapshotOp] at hf,
          fun _ => by simp [step, hr]⟩⟩
    · obtain ⟨hn, htc, hsc, hsnc, -, -, -⟩ := execute_ok_facts hr
      subst hn
      exact ⟨⟨fun hf => by simp [isSubmitOp] at hf,
        fun _ => by simp [step, hr, hsc]⟩,
        ⟨fun _ => Or.inl ⟨by simp [step, hr], by simp [step, hr, htc]⟩,
          fun hf => by simp [isExecuteOp] at hf⟩,
        ⟨fun hf => by simp [isSnapshotOp] at hf,
          fun _ => by simp [step, hr, hsnc]⟩⟩
  | opSnapshot now tv na cr =>
    rcases hr : create_snapshot s now tv na cr with e | ⟨n, s'⟩
    · exact ⟨⟨fun hf => by simp [isSubmitOp] at hf,
        fun _ => by simp [step, hr]⟩,
        ⟨fun hf => by simp [isExecuteOp] at hf, fun _ => by simp [step, hr]⟩,
        ⟨fun _ => Or.inr ⟨e, by simp [step, hr]⟩,
          fun hf => by simp [isSnapshotOp] at hf⟩⟩
    · obtain ⟨hn, hsnc, hsc, htc⟩ := snapshot_ok_facts hr
      subst hn
      exact ⟨⟨fun hf => by simp [isSubmitOp] at hf,
        fun _ => by simp [step, hr, hsc]⟩,
        ⟨fun hf => by simp [isExecuteOp] at hf,
          fun _ => by simp [step, hr, htc]⟩,
        ⟨fun _ => Or.inl ⟨by simp [step, hr], by simp [step, hr, hsnc]⟩,
          fun hf => by simp [isSnapshotOp] at hf⟩⟩
  | opHalt =>
    rcases hr : emergency_halt s with e | s'
    · exact ⟨⟨fun hf => by simp [isSubmitOp] at hf,
        fun _ => by simp [step, hr]⟩,
        ⟨fun hf => by simp [isExecuteOp] at hf, fun _ => by simp [step, hr]⟩,
        ⟨fun hf => by simp [isSnapshotOp] at hf,
          fun _ => by simp [step, hr]⟩⟩
    · obtain ⟨hsg, htc, hsn⟩ := halt_counters hr
      exact ⟨⟨fun hf => by simp [isSubmitOp] at hf,
        fun _ => by simp [step, hr, hsg]⟩,
        ⟨fun hf => by simp [isExecuteOp] at hf,
          fun _ => by simp [step, hr, htc]⟩,
        ⟨fun hf => by simp [isSnapshotOp] at hf,
          fun _ => by simp [step, hr, hsn]⟩⟩
  | opResume =>
    rcases hr : resume_trading s with e | s'
    · exact ⟨⟨fun hf => by simp [isSubmitOp] at hf,
        fun _ => by simp [step, hr]⟩,
        ⟨fun hf => by simp [isExecuteOp] at hf, fun _ => by simp [step, hr]⟩,
        ⟨fun hf => by simp [isSnapshotOp] at hf,
          fun _ => by simp [step, hr]⟩⟩
    · obtain ⟨hsg, htc, hsn⟩ := resume_counters hr
      exact ⟨⟨fun hf => by simp [isSubmitOp] at hf,
        fun _ => by simp [step, hr, hsg]⟩,
        ⟨fun hf => by simp [isExecuteOp] at hf,
          fun _ => by simp [step, hr, htc]⟩,
        ⟨fun hf => by simp [isSnapshotOp] at hf,
          fun _ => by simp [step, hr, hsn]⟩⟩
  | opUpdateRiskLimits a b =>
    rcases hr : update_risk_limits s a b with e | s'
    · exact ⟨⟨fun hf => by simp [isSubmitOp] at hf,
        fun _ => by simp [step, hr]⟩,
        ⟨fun hf => by simp [isExecuteOp] at hf, fun _ => by simp [step, hr]⟩,
        ⟨fun hf => by simp [isSnapshotOp] at hf,
          fun _ => by simp [step, hr]⟩⟩
    · obtain ⟨hsg, htc, hsn⟩ := limits_counters hr
      exact ⟨⟨fun hf => by simp [isSubmitOp] at hf,
        fun _ => by simp [step, hr, hsg]⟩,
        ⟨fun hf => by simp [isExecuteOp] at hf,
          fun _ => by simp [step, hr, htc]⟩,
        ⟨fun hf => by simp [isSnapshotOp] at hf,
          fun _ => by simp [step, hr, hsn]⟩⟩
  | opSetDynamicStopLoss en =>
    rcases hr : set_dynamic_stop_loss s en with e | s'
    · exact ⟨⟨fun hf => by simp [isSubmitOp] at hf,
        fun _ => by simp [step, hr]⟩,
        ⟨fun hf => by simp [isExecuteOp] at hf, fun _ => by simp [step, hr]⟩,
        ⟨fun hf => by simp [isSnapshotOp] at hf,
          fun _ => by simp [step, hr]⟩⟩
    · obtain ⟨hsg, htc, hsn⟩ := sdsl_counters hr
      exact ⟨⟨fun hf => by simp [isSubmitOp] at hf,
        fun _ => by simp [step, hr, hsg]⟩,
        ⟨fun hf => by simp [isExecuteOp] at hf,
          fun _ => by simp [step, hr, htc]⟩,
        ⟨fun hf => by simp [isSnapshotOp] at hf,
          fun _ => by simp [step, hr, hsn]⟩⟩
  | opRead =>
    exact ⟨⟨fun hf => by simp [isSubmitOp] at hf, fun _ => rfl⟩,
      ⟨fun hf => by simp [isExecuteOp] at hf, fun _ => rfl⟩,
      ⟨fun hf => by simp [isSnapshotOp] at hf, fun _ => rfl⟩⟩

theorem idsOf_range (p : Op → Bool) (ctr : Store → Nat)
    (hstep : ∀ s op, isInitOp op = false →
      ((p op = true →
        ((step s op).2 = .retId (ctr s + 1) ∧
          ctr (step s op).1 = ctr s + 1) ∨
        (∃ e, step s op = (s, .err e))) ∧
       (p op = false → ctr (step s op).1 = ctr s))) :
    ∀ (ops : List Op) (s : Store), opsNoInit ops = true →
      idsOf p s ops = List.range' (ctr s + 1) (idsOf p s ops).length ∧
      ctr (finalStore s ops) = ctr s + (idsOf p s ops).length
  | [], _, _ => ⟨rfl, rfl⟩
  | op :: rest, s, h => by
    have hop : isInitOp op = false := by
      cases hI : isInitOp op with
      | false => rfl
      | true => simp [opsNoInit, List.all_cons, hI] at h
    have hrest : opsNoInit rest = true := by
      simp only [opsNoInit, List.all_cons, Bool.and_eq_true] at h
      exact h.2
    have hf := hstep s op hop
    have ih := idsOf_range p ctr hstep rest (step s op).1 hrest
    by_cases hp : p op = true
    · rcases hf.1 hp with ⟨hr, hc⟩ | ⟨e, he⟩
      · have hlist : idsOf p s (op :: rest) =
            (ctr s + 1) :: idsOf p (step s op).1 rest := by
          simp [idsOf, hp, hr, retIdOf]
        have hfin : finalStore s (op :: rest) =
            finalStore (step s op).1 rest := rfl
        rw [hlist, hfin]
        constructor
        · have htail := ih.1
          rw [hc] at htail
          simp only [List.length_cons, List.range'_succ]
          exact congrArg (List.cons (ctr s + 1)) htail
        · have hctr := ih.2
          rw [hc] at hctr
          simp only [List.length_cons]
          omega
      · have hs1 : (step s op).1 = s := by rw [he]
        have hlist : idsOf p s (op :: rest) =
            idsOf p (step s op).1 rest := by
          simp [idsOf, hp, he, retIdOf]
        have hfin : finalStore s (op :: rest) =
            finalStore (step s op).1 rest := rfl
        rw [hs1] at ih hlist
        rw [hlist, hfin, hs1]
        exact ih
    · have hpf : p op = false := by
        cases hq : p op with
        | false => rfl
        | true => exact absurd hq hp
      have hc := hf.2 hpf
      have hlist : idsOf p s (op :: rest) =
          idsOf p (step s op).1 rest := by
        simp [idsOf, hpf]
      have hfin : finalStore s (op :: rest) =
          finalStore (step s op).1 rest := rfl
      rw [hlist, hfin, ← hc]
      exact ih

/-- C7 (amended): provided `initialize` is not called again, from any state
the signal, trade and snapshot identifiers returned by successful
`submit_trading_signal`, `execute_trade` and `create_snapshot` calls form
three consecutive runs starting one above the respective stored counter (so
from the freshly initialized state, at 1), each successful call returning
exactly one more than the previous successful call of its kind, with no
gaps and no reuse; the final counter value shows that only those successful
calls advanced it — failed and read-only calls leave every counter
unchanged.  (The original claim is false because a later `initialize` call
resets the counters, see the counterexample.) -/
theorem claim_C7_amended (s : Store) (ops : List Op)
    (h : opsNoInit ops = true) :
    (submitIds s ops =
        List.range' (s.signalCounter + 1) (submitIds s ops).length ∧
      (finalStore s ops).signalCounter =
        s.signalCounter + (submitIds s ops).length) ∧
    (tradeIds s ops =
        List.range' (s.tradeCounter + 1) (tradeIds s ops).length ∧
      (finalStore s ops).tradeCounter =
        s.tradeCounter + (tradeIds s ops).length) ∧
    (snapshotIds s ops =
        List.range' (s.snapshotCounter + 1) (snapshotIds s ops).length ∧
      (finalStore s ops).snapshotCounter =
        s.snapshotCounter + (snapshotIds s ops).length) := by
  refine ⟨?_, ?_, ?_⟩
  · exact idsOf_range isSubmitOp (fun st => st.signalCounter)
      (fun s' op hop => (step_counter_facts s' op hop).1) ops s h
  · exact idsOf_range isExecuteOp (fun st => st.tradeCounter)
      (fun s' op hop => (step_counter_facts s' op hop).2.1) ops s h
  · exact idsOf_range isSnapshotOp (fun st => st.snapshotCounter)
      (fun s' op hop => (step_counter_facts s' op hop).2.2) ops s h

set_option maxRecDepth 20000 in
/-- Counterexample to C7 as stated: a second `initialize` call resets the
signal counter, so two successful `submit_trading_signal` calls separated
by a re-initialization both return id 1 — the sequence of returned signal
ids is not strictly increasing and id 1 is reused. -/
theorem claim_C7_cex :
    submitIds emptyStore opsReInit = [1, 1] ∧
    ¬ (submitIds emptyStore opsReInit).Nodup :=
  ⟨rfl, by decide⟩

set_option maxRecDepth 20000 in
/-- Witness for C7 (amended): on an `initialize`-free mixed sequence
(successful, failing and read-only calls of every kind) from the freshly
initialized vault, the returned ids are 1,2 for signals and 1 for trades
and snapshots, matching the consecutive-run statement. -/
theorem claim_C7_witness :
    opsNoInit opsMixed = true ∧
    submitIds demoStore opsMixed = [1, 2] ∧
    tradeIds demoStore opsMixed = [1] ∧
    snapshotIds demoStore opsMixed = [1] ∧
    (submitIds demoStore opsMixed =
        List.range' (demoStore.signalCounter + 1)
          (submitIds demoStore opsMixed).length ∧
      (finalStore demoStore opsMixed).signalCounter =
        demoStore.signalCounter + (submitIds demoStore opsMixed).length) := by
  refine ⟨by decide, rfl, rfl, rfl, ?_⟩
  exact (claim_C7_amended demoStore opsMixed (by decide)).1

end AITreasuryVault
